import Mathlib

/-!
# Verification of the remote-connection broker

Shallow embedding of the connection-establishment core of the
app.music-assistant.io repository: the channel classifier
(`getChannelFromVersion`), the identity validator (`isValidRemoteId`),
the connection store (`saveConnection` / `loadSavedConnection`), and the
`RemoteConnector` state machine (`connect`, `handleAnswer`,
`handleIceCandidate`, `waitForServerInfo`, `cleanup`, `disconnect`).

JavaScript strings are modelled as Lean `String`; `localStorage` as a
record holding the three keys the code touches; external collaborators
(the signaling client, the WebRTC peer connection, the fingerprint
verifier) as oracles supplied to each handler.  Machine behaviour such
as `String.prototype.includes` and the `/^[A-Z0-9]{26}$/i` regex is
translated to executable Lean functions over code points.
-/

/-- Release channel: the closed enumeration `"stable" | "beta" | "nightly"`. -/
inductive Channel : Type where
  | stable
  | beta
  | nightly
deriving DecidableEq, Repr

/-- Test whether the char list `n` is a prefix of `h`. -/
def hasPrefixL : List Char → List Char → Bool
  | [], _ => true
  | _ :: _, [] => false
  | a :: as, b :: bs => a = b && hasPrefixL as bs

/-- Test whether `needle` occurs contiguously inside the second list
(the semantics of JavaScript `String.prototype.includes`). -/
def hasSubstrL (needle : List Char) : List Char → Bool
  | [] => needle.isEmpty
  | c :: t => hasPrefixL needle (c :: t) || hasSubstrL needle t

/-- Model of `s.includes(pat)` on strings. -/
def hasSubstr (s pat : String) : Bool :=
  hasSubstrL pat.toList s.toList

/-- Embedding of `getChannelFromVersion` (broker, lines 48-56):
`"0.0.0"` and `".dev"` map to nightly, then `"b"` to beta, else stable. -/
def getChannelFromVersion (version : String) : Channel :=
  if version = "0.0.0" then Channel.nightly
  else if hasSubstr version ".dev" then Channel.nightly
  else if hasSubstr version "b" then Channel.beta
  else Channel.stable

/-- Membership in the regex character class `[A-Z0-9]` with the `i` flag:
uppercase letters, lowercase letters, or digits, by code point. -/
def isAlnumCI (c : Char) : Bool :=
  (65 ≤ c.toNat && c.toNat ≤ 90) ||
  (97 ≤ c.toNat && c.toNat ≤ 122) ||
  (48 ≤ c.toNat && c.toNat ≤ 57)

/-- Embedding of `isValidRemoteId` (broker, lines 113-115):
`/^[A-Z0-9]{26}$/i.test(remoteId)`, i.e. the string itself is exactly 26
characters, each alphanumeric in either case.  No normalization happens
here. -/
def isValidRemoteId (remoteId : String) : Bool :=
  remoteId.toList.length == 26 && remoteId.toList.all isAlnumCI

/-- The `SavedConnection` record persisted by the broker. -/
structure SavedConnection : Type where
  remoteId : String
  serverName : String
  serverVersion : String
  channel : Channel
  lastConnected : Nat
deriving DecidableEq, Repr

/-- Value held under the primary storage key.  `record c` stands for a
string that `JSON.parse` turns back into the record `c` (which is what
`JSON.stringify` of a `SavedConnection` always produces); `malformed`
stands for any string `JSON.parse` throws on (the empty string, which is
falsy and skipped before parsing, lands in the same fallback branch). -/
inductive StoredVal : Type where
  | record (c : SavedConnection)
  | malformed
deriving DecidableEq, Repr

/-- The slice of `localStorage` the broker touches: the primary key
`ma_saved_connection`, the legacy frontend key `mass_remote_id`, and the
legacy token key `ma_access_token`. -/
structure LocalStorage : Type where
  primary : Option StoredVal
  frontendRemoteId : Option String
  frontendToken : Option String
deriving DecidableEq, Repr

/-- JavaScript truthiness of a `getItem` result: non-null and non-empty. -/
def truthy : Option String → Bool
  | none => false
  | some s => s ≠ ""

/-- Embedding of `saveConnection` (broker, lines 61-65): overwrite the
primary record and write the bare remote id under the legacy key. -/
def saveConnection (connection : SavedConnection) (st : LocalStorage) :
    LocalStorage :=
  { st with
    primary := some (StoredVal.record connection)
    frontendRemoteId := some connection.remoteId }

/-- The placeholder record synthesized from the legacy keys
(broker, lines 91-97). -/
def legacyPlaceholder (remoteId : String) : SavedConnection :=
  { remoteId := remoteId
    serverName := "Saved Server"
    serverVersion := "unknown"
    channel := Channel.stable
    lastConnected := 0 }

/-- The legacy-migration fallback of `loadSavedConnection`
(broker, lines 84-100): if the frontend remote id and token are both
truthy and the id is valid, synthesize the placeholder, else null. -/
def legacyFallback (st : LocalStorage) : Option SavedConnection :=
  match st.frontendRemoteId with
  | none => none
  | some rid =>
    if rid ≠ "" ∧ truthy st.frontendToken = true ∧ isValidRemoteId rid = true
    then some (legacyPlaceholder rid)
    else none

/-- Truthiness-and-validity test for the legacy frontend keys:
the legacy remote id and token are both truthy and the id is valid. -/
def legacyEligible (st : LocalStorage) : Bool :=
  truthy st.frontendRemoteId && truthy st.frontendToken &&
    (match st.frontendRemoteId with
     | some rid => isValidRemoteId rid
     | none => false)

/-- Embedding of `loadSavedConnection` (broker, lines 71-101): prefer a
parsable primary record; treat an absent, empty or unparsable primary
value as absent and fall back to the legacy keys.  Total, hence it
never throws. -/
def loadSavedConnection (st : LocalStorage) : Option SavedConnection :=
  match st.primary with
  | some (StoredVal.record c) => some c
  | some StoredVal.malformed => legacyFallback st
  | none => legacyFallback st

/-- Embedding of `clearSavedConnection` (broker, lines 106-108). -/
def clearSavedConnection (st : LocalStorage) : LocalStorage :=
  { st with primary := none }

/-- A remote ICE candidate (the JSON payload of an
`RTCIceCandidateInit`), kept opaque as a string. -/
abbrev Cand := String

/-- The `ServerInfo` descriptor sent by the server over the data
channel (broker, lines 23-30). -/
structure ServerInfo : Type where
  server_id : String
  server_version : String
  schema_version : Nat
  min_supported_schema_version : Nat
  homeassistant_addon : Bool
  server_name : Option String
deriving DecidableEq, Repr

/-- The mutable fields of a `RemoteConnector` instance
(broker, lines 122-129), together with the `localStorage` slice the
connection store writes to.  Resource handles (`peerConnection`,
`dataChannel`, `signalingConnected`) are modelled by whether they are
present/open. -/
structure ConnState : Type where
  peerConnection : Bool
  dataChannel : Bool
  signalingConnected : Bool
  remoteDescriptionSet : Bool
  iceCandidateBuffer : List Cand
  currentRemoteId : Option String
  store : LocalStorage
deriving DecidableEq, Repr

/-- Observable effects of a handler: status callback, error callback,
a candidate applied to the peer connection, a console log. -/
inductive Evt : Type where
  | statusCb (msg : String)
  | errorCb (msg : String)
  | applied (c : Cand)
  | logged (msg : String)
deriving DecidableEq, Repr

/-- Result of `verifyAndSanitizeSdp`: a sanitized SDP string or a
`CertificateVerificationError` carrying a human-readable reason. -/
inductive VerifyResult : Type where
  | ok (sdp : String)
  | certError (reason : String)
deriving DecidableEq, Repr

/-- Oracles for the external collaborators a handler calls into: the
fingerprint verifier, `setRemoteDescription`, and `addIceCandidate`
(the latter two may throw, modelled by `Except`). -/
structure Env : Type where
  verify : String → String → VerifyResult
  setRemoteDesc : String → Except String Unit
  addCand : Cand → Except String Unit

/-- Embedding of `RemoteConnector.cleanup` (broker, lines 334-349):
close the data channel and peer connection, disconnect signaling,
reset the accepted flag, drop the candidate buffer, clear the attempt
identity.  `localStorage` is untouched. -/
def cleanup (st : ConnState) : ConnState :=
  { st with
    dataChannel := false
    peerConnection := false
    signalingConnected := false
    remoteDescriptionSet := false
    iceCandidateBuffer := []
    currentRemoteId := none }

/-- Embedding of `RemoteConnector.disconnect` (broker, lines 188-190). -/
def disconnect (st : ConnState) : ConnState :=
  cleanup st

/-- The post-acceptance drain loop of `handleAnswer`
(broker, lines 251-255): apply each buffered candidate in order; the
first `addIceCandidate` failure escapes to the enclosing catch,
carrying the events emitted so far and the error message. -/
def drainBuffer (env : Env) : List Cand → Except (List Evt × String) (List Evt)
  | [] => Except.ok []
  | c :: rest =>
    match env.addCand c with
    | Except.error m => Except.error ([], m)
    | Except.ok _ =>
      match drainBuffer env rest with
      | Except.ok evts => Except.ok (Evt.applied c :: evts)
      | Except.error (evts, m) => Except.error (Evt.applied c :: evts, m)

/-- Embedding of `RemoteConnector.handleAnswer` (broker, lines 238-265).
Returns the successor state and the emitted events. -/
def handleAnswer (env : Env) (st : ConnState) (answerSdp : String) :
    ConnState × List Evt :=
  match st.currentRemoteId with
  | none => (st, [])
  | some rid =>
    if st.peerConnection = false then (st, [])
    else
      match env.verify answerSdp rid with
      | VerifyResult.certError reason =>
        (cleanup st, [Evt.errorCb ("Security verification failed: " ++ reason)])
      | VerifyResult.ok sdp =>
        match env.setRemoteDesc sdp with
        | Except.error m =>
          (cleanup st, [Evt.errorCb ("Connection error: " ++ m)])
        | Except.ok _ =>
          let st1 := { st with remoteDescriptionSet := true }
          match drainBuffer env st1.iceCandidateBuffer with
          | Except.ok evts => ({ st1 with iceCandidateBuffer := [] }, evts)
          | Except.error (evts, m) =>
            (cleanup st1, evts ++ [Evt.errorCb ("Connection error: " ++ m)])

/-- Embedding of `RemoteConnector.handleIceCandidate`
(broker, lines 267-283): apply immediately once the remote description
is set (an application failure is only logged), otherwise append to the
buffer. -/
def handleIceCandidate (env : Env) (st : ConnState) (c : Cand) :
    ConnState × List Evt :=
  if st.peerConnection = false then (st, [])
  else if st.remoteDescriptionSet then
    match env.addCand c with
    | Except.ok _ => (st, [Evt.applied c])
    | Except.error m => (st, [Evt.logged ("Error adding ICE candidate: " ++ m)])
  else
    ({ st with iceCandidateBuffer := st.iceCandidateBuffer ++ [c] }, [])

/-- Deliver a sequence of remote ICE candidates in order, accumulating
the emitted events. -/
def deliverAll (env : Env) (st : ConnState) : List Cand → ConnState × List Evt
  | [] => (st, [])
  | c :: rest =>
    let (st1, evts1) := handleIceCandidate env st c
    let (st2, evts2) := deliverAll env st1 rest
    (st2, evts1 ++ evts2)

/-- One operation performed by `RemoteConnector.connect`
(broker, lines 149-183), in program order. -/
inductive Act : Type where
  | setStatus (msg : String)
  | signalingConnect
  | requestConnection (rid : String)
  | createPeerConnection
  | createDataChannel
  | createOffer
  | setLocalDescription
  | sendOffer
  | startCeilingTimer (ms : Nat)
  | awaitServerInfo
deriving DecidableEq, Repr

/-- The ordered operation trace of `connect(remoteId)` on the path that
reaches the descriptor wait (broker, lines 149-177), including the
`setTimeout` installed at the top of `waitForServerInfo`
(broker, lines 287-289).  `connect` performs no validation of
`remoteId`: the trace is the same shape for every input. -/
def connectTrace (rid : String) : List Act :=
  [Act.setStatus "Connecting to signaling server...",
   Act.signalingConnect,
   Act.setStatus "Requesting connection...",
   Act.requestConnection rid,
   Act.setStatus "Establishing WebRTC connection...",
   Act.createPeerConnection,
   Act.createDataChannel,
   Act.createOffer,
   Act.setLocalDescription,
   Act.sendOffer,
   Act.setStatus "Waiting for server response...",
   Act.startCeilingTimer 30000,
   Act.awaitServerInfo]

/-- JavaScript `a || b` on an optional string and a default: the
default wins when the option is absent or empty
(`serverInfo.server_name || ...`, broker, line 305). -/
def orFalsy (o : Option String) (d : String) : String :=
  match o with
  | none => d
  | some s => if s = "" then d else s

/-- What the first data-channel message of an attempt looks like:
either nothing ever arrives, or a payload arrives `at` milliseconds
after the wait began and `JSON.parse` of it yields (`Except.ok`) a
descriptor or throws (`Except.error`). -/
structure FirstMsg : Type where
  arrivalMs : Nat
  parsed : Except Unit ServerInfo

/-- Embedding of `RemoteConnector.waitForServerInfo`
(broker, lines 285-332) for the timer-versus-message race: a 30000 ms
ceiling timer is installed when the wait begins; if no message arrives
within it the wait rejects with the timeout error and the store is
untouched; a message that arrives in time is parsed, and on success the
classified `SavedConnection` is persisted before resolving. -/
def waitForServerInfo (rid : String) (now : Nat) (store : LocalStorage)
    (msg : Option FirstMsg) : LocalStorage × Except String ServerInfo :=
  match msg with
  | none => (store, Except.error "Timeout waiting for server info")
  | some m =>
    if 30000 ≤ m.arrivalMs then
      (store, Except.error "Timeout waiting for server info")
    else
      match m.parsed with
      | Except.error _ => (store, Except.error "Invalid server response")
      | Except.ok info =>
        (saveConnection
          { remoteId := rid
            serverName := orFalsy info.server_name
              ("MA Server " ++ info.server_id)
            serverVersion := info.server_version
            channel := getChannelFromVersion info.server_version
            lastConnected := now } store,
         Except.ok info)

/-- State/result semantics of `connect(remoteId)`
(broker, lines 149-183) on the path that reaches the descriptor wait:
the attempt identity is recorded, signaling is connected, the peer
connection and data channel are created, then the outcome of
`waitForServerInfo` decides: success resolves with the descriptor and
keeps resources open for handoff; any rejection runs `cleanup` and
rethrows. -/
def connectRun (st : ConnState) (rid : String) (now : Nat)
    (msg : Option FirstMsg) : ConnState × Except String ServerInfo :=
  let st1 := { st with
    currentRemoteId := some rid
    signalingConnected := true
    peerConnection := true
    dataChannel := true }
  let res := waitForServerInfo rid now st1.store msg
  match res.2 with
  | Except.ok info => ({ st1 with store := res.1 }, Except.ok info)
  | Except.error m => (cleanup { st1 with store := res.1 }, Except.error m)

/-- Membership in `[A-Z0-9]` (uppercase letters and digits only),
by code point. -/
def isUpperAlnum (c : Char) : Bool :=
  (65 ≤ c.toNat && c.toNat ≤ 90) || (48 ≤ c.toNat && c.toNat ≤ 57)

/-- Modelled from the spec: the Identity Codec's `normalize` —
"uppercases, strips everything outside `[A-Z0-9]`" (the transformation
`setRemoteIdFromString` in main.ts applies before filling the input
fields).  Stated on the character list of the input. -/
def specNormalize (s : String) : List Char :=
  (s.toList.map Char.toUpper).filter isUpperAlnum

/-- Modelled from the spec: `isValid` as the claim words it — true iff
the normalized form has length exactly 26 and matches `[A-Z0-9]{26}`. -/
def specIsValid (s : String) : Bool :=
  (specNormalize s).length == 26 && (specNormalize s).all isUpperAlnum

/-- The state of a connector that has not yet connected: no resources,
empty buffer, no attempt identity, over a given storage content. -/
def initialConnState (store : LocalStorage) : ConnState :=
  { peerConnection := false
    dataChannel := false
    signalingConnected := false
    remoteDescriptionSet := false
    iceCandidateBuffer := []
    currentRemoteId := none
    store := store }

/-- The empty `localStorage` slice. -/
def emptyStorage : LocalStorage :=
  { primary := none, frontendRemoteId := none, frontendToken := none }

example : getChannelFromVersion "0.0.0" = Channel.nightly := by decide
example : getChannelFromVersion "2.1.0" = Channel.stable := by decide
example : getChannelFromVersion "2.2.0b1" = Channel.beta := by decide
example : getChannelFromVersion "2.2.0.dev202501271200" = Channel.nightly := by
  decide
example : isValidRemoteId "ABCDEFGHIJKLMNOPQRSTUVWXYZ" = true := by decide
example : isValidRemoteId "abcdefgh01234ABCDE567XYZ89" = true := by decide
example : isValidRemoteId "ABCDEFGH-IJKLM-NOPQR-STUVWXYZ" = false := by decide
example : isValidRemoteId "" = false := by decide

/-- Characters of the class `[A-Z0-9]` with the `i` flag are mapped by
ASCII uppercasing into the class `[A-Z0-9]`. -/
lemma ofNat_upper_mem (m : Nat) (h1 : 65 ≤ m) (h2 : m ≤ 90) :
    isUpperAlnum (Char.ofNat m) = true := by
  interval_cases m <;> decide

lemma toUpper_mem_class (c : Char) (h : isAlnumCI c = true) :
    isUpperAlnum c.toUpper = true := by
  simp only [isAlnumCI, Bool.or_eq_true, Bool.and_eq_true,
    decide_eq_true_eq] at h
  rw [Char.toUpper]
  rcases h with (⟨h1, h2⟩ | ⟨h1, h2⟩) | ⟨h1, h2⟩
  · rw [if_neg (by omega)]
    simp only [isUpperAlnum, Bool.or_eq_true, Bool.and_eq_true,
      decide_eq_true_eq]
    exact Or.inl ⟨h1, h2⟩
  · rw [if_pos (by omega)]
    exact ofNat_upper_mem _ (by omega) (by omega)
  · rw [if_neg (by omega)]
    simp only [isUpperAlnum, Bool.or_eq_true, Bool.and_eq_true,
      decide_eq_true_eq]
    exact Or.inr ⟨h1, h2⟩

/-- On a list of characters that are all alphanumeric (either case),
normalization strips nothing: its result has the same length. -/
lemma specNormalize_length_of_all (s : String)
    (h : s.toList.all isAlnumCI = true) :
    (specNormalize s).length = s.toList.length := by
  unfold specNormalize
  rw [List.filter_eq_self.mpr, List.length_map]
  intro a ha
  obtain ⟨b, hb, rfl⟩ := List.mem_map.mp ha
  exact toUpper_mem_class b (by
    rw [List.all_eq_true] at h
    exact h b hb)

/-- Before the remote description is accepted, delivering candidates
only appends them to the buffer, in receipt order, and applies none. -/
lemma deliverAll_buffers (env : Env) (cs : List Cand) :
    ∀ st : ConnState, st.peerConnection = true →
    st.remoteDescriptionSet = false →
    deliverAll env st cs =
      ({ st with iceCandidateBuffer := st.iceCandidateBuffer ++ cs }, []) := by
  induction cs with
  | nil =>
    intro st h1 h2
    simp [deliverAll]
  | cons c rest ih =>
    intro st h1 h2
    have hstep : handleIceCandidate env st c =
        ({ st with iceCandidateBuffer := st.iceCandidateBuffer ++ [c] }, []) := by
      simp [handleIceCandidate, h1, h2]
    have hrec := ih { st with iceCandidateBuffer := st.iceCandidateBuffer ++ [c] }
      (by simpa using h1) (by simpa using h2)
    simp [deliverAll, hstep, hrec, List.append_assoc]

/-- Draining a buffer whose candidates all apply cleanly emits exactly
the application events, in buffer order. -/
lemma drainBuffer_ok (env : Env) (cs : List Cand)
    (h : ∀ c ∈ cs, env.addCand c = Except.ok ()) :
    drainBuffer env cs = Except.ok (cs.map Evt.applied) := by
  induction cs with
  | nil => simp [drainBuffer]
  | cons c rest ih =>
    have hc : env.addCand c = Except.ok () := h c (by simp)
    have hrest := ih (fun d hd => h d (by simp [hd]))
    simp [drainBuffer, hc, hrest]

/-- Draining a buffer whose first failing candidate is `c` escapes with
the events for the candidates already applied and the error message. -/
lemma drainBuffer_err (env : Env) (cs : List Cand) (c : Cand)
    (rest : List Cand) (m : String)
    (hok : ∀ d ∈ cs, env.addCand d = Except.ok ())
    (hbad : env.addCand c = Except.error m) :
    drainBuffer env (cs ++ c :: rest) =
      Except.error (cs.map Evt.applied, m) := by
  induction cs with
  | nil => simp [drainBuffer, hbad]
  | cons d ds ih =>
    have hd : env.addCand d = Except.ok () := hok d (by simp)
    have hrec := ih (fun e he => hok e (by simp [he]))
    simp [drainBuffer, hd, hrec]

/-- C4: for every version string `v`, the classifier returns nightly
when `v` equals "0.0.0" or contains ".dev", otherwise beta when `v`
contains "b", otherwise stable, with the nightly checks taking
precedence over the beta check; the result is always one of the three
enumeration values. -/
theorem c4_classifier_cases (v : String) :
    (getChannelFromVersion v = Channel.nightly ↔
      (v = "0.0.0" ∨ hasSubstr v ".dev" = true)) ∧
    (getChannelFromVersion v = Channel.beta ↔
      (v ≠ "0.0.0" ∧ hasSubstr v ".dev" = false ∧ hasSubstr v "b" = true)) ∧
    (getChannelFromVersion v = Channel.stable ↔
      (v ≠ "0.0.0" ∧ hasSubstr v ".dev" = false ∧ hasSubstr v "b" = false)) ∧
    (getChannelFromVersion v = Channel.stable ∨
     getChannelFromVersion v = Channel.beta ∨
     getChannelFromVersion v = Channel.nightly) := by
  unfold getChannelFromVersion
  by_cases h0 : v = "0.0.0" <;>
    by_cases hd : hasSubstr v ".dev" = true <;>
      by_cases hb : hasSubstr v "b" = true <;>
        simp [h0, hd, hb]

/-- C7: saving a connection and then loading returns the identical
record in all fields, when no legacy keys are present before the save. -/
theorem c7_save_load_round_trip (st : LocalStorage) (x : SavedConnection)
    (hid : st.frontendRemoteId = none) (htok : st.frontendToken = none) :
    loadSavedConnection (saveConnection x st) = some x := rfl

theorem c7_save_load_round_trip_witness :
    loadSavedConnection
      (saveConnection
        { remoteId := "R", serverName := "n", serverVersion := "2.1.0",
          channel := Channel.stable, lastConnected := 7 } emptyStorage) =
      some
        { remoteId := "R", serverName := "n", serverVersion := "2.1.0",
          channel := Channel.stable, lastConnected := 7 } :=
  c7_save_load_round_trip emptyStorage _ rfl rfl

/-- C9: `disconnect` is idempotent and safe from every state: it always
succeeds (it is total), leaves no open resources, discards buffered
candidates, clears the attempt identity, leaves storage untouched, and
a second call leaves the state identical to after the first; from the
never-connected initial state it is a no-op. -/
theorem c9_disconnect_idempotent (st : ConnState) :
    disconnect (disconnect st) = disconnect st ∧
    (disconnect st).dataChannel = false ∧
    (disconnect st).peerConnection = false ∧
    (disconnect st).signalingConnected = false ∧
    (disconnect st).iceCandidateBuffer = [] ∧
    (disconnect st).currentRemoteId = none ∧
    (disconnect st).store = st.store ∧
    disconnect (initialConnState st.store) = initialConnState st.store := by
  simp [disconnect, cleanup, initialConnState]

/-- C6: `load` is total (never throws); it prefers a parsable primary
record; a malformed primary value behaves exactly like an absent one;
with the primary absent or malformed it yields the synthesized
placeholder (channel stable, version "unknown") precisely when the
legacy identifier and token are present (truthy) and the identifier is
valid, and null otherwise. -/
theorem c6_load_characterization (st : LocalStorage) :
    (∀ c, st.primary = some (StoredVal.record c) →
      loadSavedConnection st = some c) ∧
    (loadSavedConnection { st with primary := some StoredVal.malformed } =
      loadSavedConnection { st with primary := none }) ∧
    ((st.primary = none ∨ st.primary = some StoredVal.malformed) →
      loadSavedConnection st = legacyFallback st) ∧
    (∀ rid, st.frontendRemoteId = some rid → legacyEligible st = true →
      legacyFallback st = some (legacyPlaceholder rid)) ∧
    (legacyEligible st = false → legacyFallback st = none) := by
  refine ⟨?_, ?_, ?_, ?_, ?_⟩
  · intro c hc
    simp [loadSavedConnection, hc]
  · simp [loadSavedConnection, legacyFallback]
  · rintro (hp | hp) <;> simp [loadSavedConnection, hp]
  · intro rid hrid helig
    simp only [legacyEligible, hrid, Bool.and_eq_true, truthy] at helig
    obtain ⟨⟨h1, h2⟩, h3⟩ := helig
    simp only [legacyFallback, hrid]
    rw [if_pos]
    exact ⟨by simpa using h1, h2, h3⟩
  · intro helig
    unfold legacyFallback
    cases hrid : st.frontendRemoteId with
    | none => rfl
    | some rid =>
      show (if rid ≠ "" ∧ truthy st.frontendToken = true ∧
          isValidRemoteId rid = true then some (legacyPlaceholder rid)
        else none) = none
      rw [if_neg]
      rintro ⟨h1, h2, h3⟩
      have htrue : legacyEligible st = true := by
        unfold legacyEligible
        rw [hrid, h2]
        simp [truthy, h1, h3]
      rw [helig] at htrue
      exact Bool.false_ne_true htrue

theorem c6_load_characterization_witness :
    loadSavedConnection
      { primary := some StoredVal.malformed,
        frontendRemoteId := some "ABCDEFGHIJKLMNOPQRSTUVWXYZ",
        frontendToken := some "tok" } =
      some (legacyPlaceholder "ABCDEFGHIJKLMNOPQRSTUVWXYZ") := by
  have h := c6_load_characterization
    { primary := some StoredVal.malformed,
      frontendRemoteId := some "ABCDEFGHIJKLMNOPQRSTUVWXYZ",
      frontendToken := some "tok" }
  rw [h.2.2.1 (Or.inr rfl), h.2.2.2.1 "ABCDEFGHIJKLMNOPQRSTUVWXYZ" rfl (by decide)]

/-- C1: when the fingerprint verifier rejects the received answer for
the connecting identifier, the attempt fails via the error callback
with a security-verification message carrying the verifier's reason,
the attempt is torn down (data channel, peer connection and signaling
all closed, buffer dropped, identity cleared), and the stored
connection record is unchanged. -/
theorem c1_verification_failure_teardown (env : Env) (st : ConnState)
    (answerSdp rid reason : String)
    (hpc : st.peerConnection = true)
    (hrid : st.currentRemoteId = some rid)
    (hver : env.verify answerSdp rid = VerifyResult.certError reason) :
    handleAnswer env st answerSdp =
      (cleanup st,
       [Evt.errorCb ("Security verification failed: " ++ reason)]) ∧
    (handleAnswer env st answerSdp).1.store = st.store ∧
    (cleanup st).dataChannel = false ∧
    (cleanup st).peerConnection = false ∧
    (cleanup st).signalingConnected = false ∧
    (cleanup st).iceCandidateBuffer = [] ∧
    (cleanup st).currentRemoteId = none := by
  have hmain : handleAnswer env st answerSdp =
      (cleanup st,
       [Evt.errorCb ("Security verification failed: " ++ reason)]) := by
    simp [handleAnswer, hrid, hpc, hver]
  exact ⟨hmain, by simp [hmain, cleanup], by simp [cleanup], by simp [cleanup],
    by simp [cleanup], by simp [cleanup], by simp [cleanup]⟩

theorem c1_verification_failure_teardown_witness :
    handleAnswer
      { verify := fun _ _ => VerifyResult.certError "fingerprint mismatch",
        setRemoteDesc := fun _ => Except.ok (),
        addCand := fun _ => Except.ok () }
      { peerConnection := true, dataChannel := true,
        signalingConnected := true, remoteDescriptionSet := false,
        iceCandidateBuffer := ["x"], currentRemoteId := some "RID",
        store := emptyStorage }
      "sdp" =
      (cleanup
        { peerConnection := true, dataChannel := true,
          signalingConnected := true, remoteDescriptionSet := false,
          iceCandidateBuffer := ["x"], currentRemoteId := some "RID",
          store := emptyStorage },
       [Evt.errorCb "Security verification failed: fingerprint mismatch"]) :=
  (c1_verification_failure_teardown _ _ "sdp" "RID" "fingerprint mismatch"
    rfl rfl rfl).1

/-- C2: for one attempt with a live peer connection whose candidates
all apply cleanly: every candidate delivered before the remote
description is accepted is appended to the buffer (in receipt order)
and not applied; acceptance of the answer applies all buffered
candidates in original receipt order and empties the buffer; every
candidate delivered after acceptance is applied immediately and leaves
the buffer untouched. -/
theorem c2_candidate_buffer_ordering (env : Env) (st : ConnState)
    (cs : List Cand) (answerSdp rid sdp : String)
    (hall : ∀ c, env.addCand c = Except.ok ())
    (hpc : st.peerConnection = true)
    (hrds : st.remoteDescriptionSet = false)
    (hrid : st.currentRemoteId = some rid)
    (hver : env.verify answerSdp rid = VerifyResult.ok sdp)
    (hdesc : env.setRemoteDesc sdp = Except.ok ()) :
    deliverAll env st cs =
      ({ st with iceCandidateBuffer := st.iceCandidateBuffer ++ cs }, []) ∧
    handleAnswer env
        { st with iceCandidateBuffer := st.iceCandidateBuffer ++ cs }
        answerSdp =
      ({ st with iceCandidateBuffer := [], remoteDescriptionSet := true },
       (st.iceCandidateBuffer ++ cs).map Evt.applied) ∧
    (∀ st' : ConnState, ∀ c, st'.peerConnection = true →
      st'.remoteDescriptionSet = true →
      handleIceCandidate env st' c = (st', [Evt.applied c])) := by
  refine ⟨deliverAll_buffers env cs st hpc hrds, ?_, ?_⟩
  · have hdrain := drainBuffer_ok env (st.iceCandidateBuffer ++ cs)
      (fun c _ => hall c)
    simp [handleAnswer, hrid, hpc, hver, hdesc, hdrain]
  · intro st' c hpc' hrds'
    simp [handleIceCandidate, hpc', hrds', hall c]

theorem c2_candidate_buffer_ordering_witness :
    deliverAll
        { verify := fun _ _ => VerifyResult.ok "sdp",
          setRemoteDesc := fun _ => Except.ok (),
          addCand := fun _ => Except.ok () }
        { peerConnection := true, dataChannel := true,
          signalingConnected := true, remoteDescriptionSet := false,
          iceCandidateBuffer := [], currentRemoteId := some "RID",
          store := emptyStorage }
        ["a", "b"] =
      ({ peerConnection := true, dataChannel := true,
         signalingConnected := true, remoteDescriptionSet := false,
         iceCandidateBuffer := ["a", "b"], currentRemoteId := some "RID",
         store := emptyStorage }, []) :=
  (c2_candidate_buffer_ordering
    { verify := fun _ _ => VerifyResult.ok "sdp",
      setRemoteDesc := fun _ => Except.ok (),
      addCand := fun _ => Except.ok () }
    { peerConnection := true, dataChannel := true,
      signalingConnected := true, remoteDescriptionSet := false,
      iceCandidateBuffer := [], currentRemoteId := some "RID",
      store := emptyStorage }
    ["a", "b"] "answer" "RID" "sdp"
    (fun _ => rfl) rfl rfl rfl rfl rfl).1

/-- C10: ICE-candidate application failures are handled asymmetrically.
A candidate that fails to apply after the remote description is
accepted is only logged and the attempt continues with its state
untouched; a buffered candidate that fails to apply during the
post-acceptance drain aborts the whole attempt: the error callback
fires and every resource is torn down via `cleanup`. -/
theorem c10_candidate_failure_asymmetry :
    (∀ (env : Env) (st : ConnState) (c : Cand) (m : String),
      st.peerConnection = true → st.remoteDescriptionSet = true →
      env.addCand c = Except.error m →
      handleIceCandidate env st c =
        (st, [Evt.logged ("Error adding ICE candidate: " ++ m)])) ∧
    (∀ (env : Env) (st : ConnState) (rid answerSdp sdp : String)
      (cs : List Cand) (c : Cand) (rest : List Cand) (m : String),
      st.peerConnection = true → st.currentRemoteId = some rid →
      st.iceCandidateBuffer = cs ++ c :: rest →
      (∀ d ∈ cs, env.addCand d = Except.ok ()) →
      env.addCand c = Except.error m →
      env.verify answerSdp rid = VerifyResult.ok sdp →
      env.setRemoteDesc sdp = Except.ok () →
      handleAnswer env st answerSdp =
        (cleanup st,
         cs.map Evt.applied ++ [Evt.errorCb ("Connection error: " ++ m)])) := by
  constructor
  · intro env st c m hpc hrds hbad
    simp [handleIceCandidate, hpc, hrds, hbad]
  · intro env st rid answerSdp sdp cs c rest m hpc hrid hbuf hok hbad hver hdesc
    have hdrain := drainBuffer_err env cs c rest m hok hbad
    simp [handleAnswer, hrid, hpc, hver, hdesc, hbuf, hdrain, cleanup]

theorem c10_candidate_failure_asymmetry_witness :
    handleIceCandidate
      { verify := fun _ _ => VerifyResult.ok "sdp",
        setRemoteDesc := fun _ => Except.ok (),
        addCand := fun c => if c = "bad" then Except.error "boom"
          else Except.ok () }
      { peerConnection := true, dataChannel := true,
        signalingConnected := true, remoteDescriptionSet := true,
        iceCandidateBuffer := [], currentRemoteId := some "RID",
        store := emptyStorage }
      "bad" =
      ({ peerConnection := true, dataChannel := true,
         signalingConnected := true, remoteDescriptionSet := true,
         iceCandidateBuffer := [], currentRemoteId := some "RID",
         store := emptyStorage },
       [Evt.logged "Error adding ICE candidate: boom"]) ∧
    handleAnswer
      { verify := fun _ _ => VerifyResult.ok "sdp",
        setRemoteDesc := fun _ => Except.ok (),
        addCand := fun c => if c = "bad" then Except.error "boom"
          else Except.ok () }
      { peerConnection := true, dataChannel := true,
        signalingConnected := true, remoteDescriptionSet := false,
        iceCandidateBuffer := ["a", "bad", "z"], currentRemoteId := some "RID",
        store := emptyStorage }
      "answer" =
      (cleanup
        { peerConnection := true, dataChannel := true,
          signalingConnected := true, remoteDescriptionSet := false,
          iceCandidateBuffer := ["a", "bad", "z"],
          currentRemoteId := some "RID", store := emptyStorage },
       [Evt.applied "a", Evt.errorCb "Connection error: boom"]) := by
  constructor
  · exact c10_candidate_failure_asymmetry.1 _ _ "bad" "boom" rfl rfl
      (by simp)
  · exact c10_candidate_failure_asymmetry.2 _ _ "RID" "answer" "sdp"
      ["a"] "bad" ["z"] "boom" rfl rfl rfl
      (by intro d hd; fin_cases hd; simp) (by simp) rfl rfl

/-- C3 counterexample: `connect` performs no identifier validation. For
the concrete input "" — which the Identity Codec rejects — the
operation trace of `connect` still opens the signaling connection, so
the attempt does not reject before network interaction, and it fails
(when nothing answers) with the timeout error, not an invalid-identifier
error. -/
theorem c3_counterexample :
    isValidRemoteId "" = false ∧
    Act.signalingConnect ∈ connectTrace "" ∧
    (connectRun (initialConnState emptyStorage) "" 0 none).2 =
      Except.error "Timeout waiting for server info" := by
  refine ⟨by decide, by decide, rfl⟩

/-- C3 amended: `connect(identifier)` does not validate its input: even
for an identifier the Identity Codec rejects, it opens the Signaling
Channel connection (validation is left to the caller, which only
submits complete normalized identifiers). -/
theorem c3_connect_never_validates (rid : String)
    (h : isValidRemoteId rid = false) :
    Act.signalingConnect ∈ connectTrace rid ∧
    (connectTrace rid).get? 0 =
      some (Act.setStatus "Connecting to signaling server...") := by
  exact ⟨by simp [connectTrace], rfl⟩

theorem c3_connect_never_validates_witness :
    Act.signalingConnect ∈ connectTrace "" ∧
    (connectTrace "").get? 0 =
      some (Act.setStatus "Connecting to signaling server...") :=
  c3_connect_never_validates "" (by decide)

/-- C5 counterexample: the 30-second ceiling timer does not start when
`connect` is invoked: on the concrete attempt for identifier
"AAAAAAAAAAAAAAAAAAAAAAAAAA" the signaling connection is opened as the
second operation of `connect`, while the timer is only installed as the
twelfth, after the offer has been sent — no operation before it starts
the timer. -/
theorem c5_counterexample :
    (connectTrace "AAAAAAAAAAAAAAAAAAAAAAAAAA").get? 1 =
      some Act.signalingConnect ∧
    (connectTrace "AAAAAAAAAAAAAAAAAAAAAAAAAA").get? 11 =
      some (Act.startCeilingTimer 30000) ∧
    (∀ i < 11, (connectTrace "AAAAAAAAAAAAAAAAAAAAAAAAAA").get? i ≠
      some (Act.startCeilingTimer 30000)) := by
  refine ⟨rfl, rfl, by decide⟩

/-- C5 amended: the 30-second ceiling timer starts when the orchestrator
begins waiting for the server descriptor (immediately after the offer is
sent), not at `connect` invocation; if no descriptor message arrives
within the ceiling the attempt fails with the timeout error, all
resources are torn down exactly as on any other failure path (via
`cleanup`), and the Connection Store is left unchanged. -/
theorem c5_timeout_behaviour (st : ConnState) (rid : String) (now : Nat)
    (msg : Option FirstMsg)
    (hmsg : msg = none ∨ ∃ m, msg = some m ∧ 30000 ≤ m.arrivalMs) :
    (connectRun st rid now msg).2 =
      Except.error "Timeout waiting for server info" ∧
    (connectRun st rid now msg).1.store = st.store ∧
    (connectRun st rid now msg).1.dataChannel = false ∧
    (connectRun st rid now msg).1.peerConnection = false ∧
    (connectRun st rid now msg).1.signalingConnected = false ∧
    (connectRun st rid now msg).1.iceCandidateBuffer = [] ∧
    (connectRun st rid now msg).1.currentRemoteId = none ∧
    (connectTrace rid).get? 9 = some Act.sendOffer ∧
    (connectTrace rid).get? 11 = some (Act.startCeilingTimer 30000) ∧
    (connectTrace rid).get? 12 = some Act.awaitServerInfo := by
  rcases hmsg with hnone | ⟨m, hsome, hlate⟩
  · subst hnone
    refine ⟨rfl, rfl, rfl, rfl, rfl, rfl, rfl, rfl, rfl, rfl⟩
  · subst hsome
    have hrun : connectRun st rid now (some m) =
        (cleanup { st with
          currentRemoteId := some rid, signalingConnected := true,
          peerConnection := true, dataChannel := true },
         Except.error "Timeout waiting for server info") := by
      simp [connectRun, waitForServerInfo, if_pos hlate]
    simp [hrun, cleanup]
    exact ⟨rfl, rfl, rfl⟩

theorem c5_timeout_behaviour_witness :
    (connectRun (initialConnState emptyStorage) "RID" 0 none).2 =
      Except.error "Timeout waiting for server info" ∧
    (connectRun (initialConnState emptyStorage) "RID" 0 none).1.store =
      (initialConnState emptyStorage).store :=
  ⟨(c5_timeout_behaviour (initialConnState emptyStorage) "RID" 0 none
      (Or.inl rfl)).1,
   (c5_timeout_behaviour (initialConnState emptyStorage) "RID" 0 none
      (Or.inl rfl)).2.1⟩

/-- C8 counterexample: the input "ABCDEFGH-IJKLM-NOPQR-STUVWXYZ"
(a valid token with dashes inserted) normalizes to a 26-character
alphanumeric token, so the claim says `isValid` accepts it — but
`isValidRemoteId` tests the raw string against `/^[A-Z0-9]{26}$/i`
without normalizing and rejects it. -/
theorem c8_counterexample :
    specIsValid "ABCDEFGH-IJKLM-NOPQR-STUVWXYZ" = true ∧
    isValidRemoteId "ABCDEFGH-IJKLM-NOPQR-STUVWXYZ" = false := by
  constructor
  · decide
  · decide

/-- C8 amended: `isValid(s)` is true iff `s` itself consists of exactly
26 alphanumeric characters (either case, no stripping): equivalently,
the normalized form of `s` has length exactly 26 AND `s` contains no
character that normalization would strip.  Inputs with inserted dashes
or spaces are therefore rejected even when their normalized form is a
valid 26-character token; lowercase letters are accepted. -/
theorem c8_validator_no_normalization (s : String) :
    isValidRemoteId s =
      ((specNormalize s).length == 26 && s.toList.all isAlnumCI) := by
  cases hall : s.toList.all isAlnumCI with
  | false =>
    unfold isValidRemoteId
    rw [hall, Bool.and_false, Bool.and_false]
  | true =>
    have hlen := specNormalize_length_of_all s hall
    unfold isValidRemoteId
    rw [hall, Bool.and_true, Bool.and_true, hlen]
